import Mathlib

/-!
Shallow embedding of fipy/meshes/numMesh/uniformGrid1D.py (class UniformGrid1D).

Real-valued quantities are modelled as rationals; all arithmetic performed by
the source on these quantities (halving, affine index maps, sign flips) is
exact, so no precision is lost.  Integer index arrays are modelled as lists of
integers; masked-array entries (module MA) are modelled as Option values, with
none standing for a masked entry.  A numerix array of shape (n,) becomes a
list of length n, an array of shape (n, 2) a list of pairs, and the (n, 1) and
(n, 2, 1) arrays of normals are flattened over their trailing singleton axis.

Methods whose body performs an index assignment on row 0 or row -1 of an array
of cells (or reads such a row) require a nonempty array in the source, i.e.
nx of at least 1; the theorems about them carry that hypothesis.
-/

/-- Errors of the embedded slice: the mesh-parameter validation error named by
the specification, and the Python NameError raised when a body mentions an
unbound name. -/
inductive FipyError where
  | invalidMeshParameters
  | meshCompatibilityError
  | nameError
  deriving DecidableEq, Repr

/-- State of a constructed UniformGrid1D engine: the three mesh parameters
stored by UniformGrid1D.__init__ after unit normalization (dx, nx, origin).
Unit handling (PhysicalField) is out of scope of the slice; the stored scale
is the identity. -/
structure UniformGrid1D where
  dx : ℚ
  nx : ℕ
  origin : ℚ
  deriving DecidableEq, Repr

namespace UniformGrid1D

/-- Modelled from the spec: Grid1D._calcNumPts (fipy/meshes/numMesh/grid1D.py,
not under src/) resolves the cell count from the spacing d and the requested
count n.  Per sections 4.1 and 7 of the specification, construction fails with
InvalidMeshParameters when the spacing is non-positive or the resolved cell
count is negative, and never returns a partially constructed engine. -/
def _calcNumPts (d : ℚ) (n : ℤ) : Except FipyError ℕ :=
  if d ≤ 0 then .error .invalidMeshParameters
  else if n < 0 then .error .invalidMeshParameters
  else .ok n.toNat

/-- UniformGrid1D.__init__: normalizes dx and origin by the (identity) scale,
resolves nx through _calcNumPts, and stores the three parameters.  The derived
counts (numberOfVertices, numberOfFaces, numberOfCells) are the functions
below. -/
def mk1D (dx : ℚ) (nx : ℤ) (origin : ℚ) : Except FipyError UniformGrid1D :=
  (_calcNumPts dx nx).map fun n => { dx := dx, nx := n, origin := origin }

/-- self.numberOfVertices = self.nx + 1 -/
def numberOfVertices (g : UniformGrid1D) : ℕ := g.nx + 1

/-- self.numberOfFaces = self.nx + 1 -/
def numberOfFaces (g : UniformGrid1D) : ℕ := g.nx + 1

/-- self.numberOfCells = self.nx -/
def numberOfCells (g : UniformGrid1D) : ℕ := g.nx

/-- UniformGrid1D._translate: returns UniformGrid1D(dx, nx, origin + vector);
the constructor is re-run on the shifted origin. -/
def _translate (g : UniformGrid1D) (vector : ℚ) : Except FipyError UniformGrid1D :=
  mk1D g.dx (g.nx : ℤ) (g.origin + vector)

/-- UniformGrid1D.__mul__: returns UniformGrid1D(dx * factor, nx, origin * factor). -/
def mulByFactor (g : UniformGrid1D) (factor : ℚ) : Except FipyError UniformGrid1D :=
  mk1D (g.dx * factor) (g.nx : ℤ) (g.origin * factor)

/-- UniformGrid1D._concatenate: the body evaluates Mesh1D(...) but the module
uniformGrid1D.py never imports Mesh1D (its imports are MA, Grid1D,
PhysicalField and numerix), so looking the name up raises NameError before
any argument is evaluated.  The intended generic-mesh result is therefore
never produced. -/
def _concatenate (g : UniformGrid1D) (other : UniformGrid1D) (smallNumber : ℚ) :
    Except FipyError Unit :=
  .error .nameError

/-- getExteriorFaceIDs: numerix.array([0, self.numberOfFaces - 1]). -/
def getExteriorFaceIDs (g : UniformGrid1D) : List ℕ :=
  [0, g.numberOfFaces - 1]

/-- getInteriorFaceIDs: numerix.arange(self.numberOfFaces - 2) + 1. -/
def getInteriorFaceIDs (g : UniformGrid1D) : List ℕ :=
  (List.range (g.numberOfFaces - 2)).map (· + 1)

/-- _getCellFaceOrientations: ones((numberOfCells, 2)); column 0 multiplied by
-1; entry [0,0] set to 1.  Row i is hence (1, 1) for i = 0 and (-1, 1)
otherwise.  The index assignment on row 0 requires numberOfCells of at
least 1 in the source. -/
def _getCellFaceOrientations (g : UniformGrid1D) : List (ℤ × ℤ) :=
  (List.range g.numberOfCells).map fun i : ℕ =>
    (if i = 0 then 1 else -1, 1)

/-- _getAdjacentCellIDs: ids = transpose((c1 - 1, c1)) over the faces c1;
ids[0,0] = ids[0,1]; ids[-1,1] = ids[-1,0]; the two columns are returned as a
pair of arrays.  Row 0 becomes (0, 0); the last row (nf-1, taken after the
row-0 update) becomes (nf-2, nf-2) when nf is at least 2 and (0, 0) when
nf = 1.  The row assignments require a nonempty array, which always holds
(nf = nx + 1). -/
def _getAdjacentCellIDs (g : UniformGrid1D) : List ℤ × List ℤ :=
  ((List.range g.numberOfFaces).map fun i : ℕ =>
      if i = 0 then 0 else (i : ℤ) - 1,
   (List.range g.numberOfFaces).map fun i : ℕ =>
      if i = g.numberOfFaces - 1 then (if i = 0 then 0 else (i : ℤ) - 1) else (i : ℤ))

/-- _getCellToCellIDs: ids = MA.transpose(MA.array((c1 - 1, c1 + 1))) over the
cells c1; ids[0,0] = MA.masked; ids[-1,1] = MA.masked.  The row assignments
require numberOfCells of at least 1 in the source. -/
def _getCellToCellIDs (g : UniformGrid1D) : List (Option ℤ × Option ℤ) :=
  (List.range g.numberOfCells).map fun i : ℕ =>
    (if i = 0 then none else some ((i : ℤ) - 1),
     if i = g.numberOfCells - 1 then none else some ((i : ℤ) + 1))

/-- _getCellToCellIDsFilled: takes _getCellToCellIDs().filled() and overwrites
ids[0,0] with 0 and ids[-1,1] with numberOfCells - 1.  The masked entries of
_getCellToCellIDs are exactly [0,0] and [-1,1], so every fill value is
overwritten: slot 0 of cell 0 becomes 0, slot 1 of the last cell becomes
numberOfCells - 1, and every other slot keeps its unmasked value. -/
def _getCellToCellIDsFilled (g : UniformGrid1D) : List (ℤ × ℤ) :=
  (List.range g.numberOfCells).map fun i : ℕ =>
    (if i = 0 then 0 else (i : ℤ) - 1,
     if i = g.numberOfCells - 1 then (g.numberOfCells : ℤ) - 1 else (i : ℤ) + 1)

/-- _getMaxFacesPerCell: the constant 2. -/
def _getMaxFacesPerCell (g : UniformGrid1D) : ℕ := 2

/-- getFaceCellIDs: ids = MA.transpose(MA.array((c1 - 1, c1))) over the faces
c1; ids[0,0] = ids[0,1] (i.e. 0); ids[0,1] = MA.masked; ids[-1,1] = MA.masked.
Row 0 is hence (some 0, none), the last row (some (nf - 2), none), and an
interior row i is (some (i - 1), some i).  The row assignments require a
nonempty array, which always holds (nf = nx + 1). -/
def getFaceCellIDs (g : UniformGrid1D) : List (Option ℤ × Option ℤ) :=
  (List.range g.numberOfFaces).map fun i : ℕ =>
    (if i = 0 then some 0 else some ((i : ℤ) - 1),
     if i = 0 ∨ i = g.numberOfFaces - 1 then none else some (i : ℤ))

/-- _getFaceAreas: numerix.ones(numberOfFaces). -/
def _getFaceAreas (g : UniformGrid1D) : List ℚ :=
  List.replicate g.numberOfFaces 1

/-- _getFaceNormals: ones((numberOfFaces, 1)); faceNormals[0] multiplied by -1
(the source comments that the left-most face's normal must be reversed to make
fluxes work).  The trailing singleton axis is flattened. -/
def _getFaceNormals (g : UniformGrid1D) : List ℚ :=
  (List.range g.numberOfFaces).map fun i : ℕ =>
    if i = 0 then -1 else 1

/-- getCellVolumes: numerix.ones(numberOfCells) * dx. -/
def getCellVolumes (g : UniformGrid1D) : List ℚ :=
  (List.replicate g.numberOfCells (1 : ℚ)).map (· * g.dx)

/-- getCellCenters: (arange(numberOfCells) + 0.5) * dx + origin. -/
def getCellCenters (g : UniformGrid1D) : List ℚ :=
  (List.range g.numberOfCells).map fun i : ℕ =>
    ((i : ℚ) + 0.5) * g.dx + g.origin

/-- _getCellDistances: zeros(numberOfFaces); entries 1..nf-2 set to dx; entry
0 and entry nf-1 set to dx / 2. -/
def _getCellDistances (g : UniformGrid1D) : List ℚ :=
  (List.range g.numberOfFaces).map fun i : ℕ =>
    if i = 0 ∨ i = g.numberOfFaces - 1 then g.dx / 2 else g.dx

/-- _getFaceAspectRatios: the body is
    return 1. / _getCellDistances()
calling the bare name _getCellDistances, which is a method, not a module-level
binding of uniformGrid1D.py; Python raises NameError on every call. -/
def _getFaceAspectRatios (g : UniformGrid1D) : Except FipyError (List ℚ) :=
  .error .nameError

/-- _getCellToCellDistances: an array of shape (numberOfCells, 2) filled with
dx; entry [0,0] and entry [-1,1] set to dx / 2.  The row assignments require
numberOfCells of at least 1 in the source. -/
def _getCellToCellDistances (g : UniformGrid1D) : List (ℚ × ℚ) :=
  (List.range g.numberOfCells).map fun i : ℕ =>
    (if i = 0 then g.dx / 2 else g.dx,
     if i = g.numberOfCells - 1 then g.dx / 2 else g.dx)

/-- _getCellNormals: ones((numberOfCells, 2, 1)); slot 0 of every cell set to
-1.  The trailing singleton axis is flattened: every row is (-1, 1). -/
def _getCellNormals (g : UniformGrid1D) : List (ℚ × ℚ) :=
  (List.range g.numberOfCells).map fun _ => (-1, 1)

/-- _getCellAreas: ones((numberOfCells, 2)). -/
def _getCellAreas (g : UniformGrid1D) : List (ℚ × ℚ) :=
  (List.range g.numberOfCells).map fun _ => (1, 1)

/-- getFaceCenters: arange(numberOfFaces) * dx + origin. -/
def getFaceCenters (g : UniformGrid1D) : List ℚ :=
  (List.range g.numberOfFaces).map fun i : ℕ =>
    (i : ℚ) * g.dx + g.origin

/-- getVertexCoords: returns getFaceCenters(). -/
def getVertexCoords (g : UniformGrid1D) : List ℚ :=
  g.getFaceCenters

end UniformGrid1D

/-- The concrete engine of the specification scenario: dx = 1, nx = 3,
origin = 0. -/
def grid3 : UniformGrid1D := { dx := 1, nx := 3, origin := 0 }

example : grid3.getCellCenters = [0.5, 1.5, 2.5] := by
  norm_num [grid3, UniformGrid1D.getCellCenters, UniformGrid1D.numberOfCells, List.range_succ]
example : grid3.getFaceCenters = [0, 1, 2, 3] := by
  norm_num [grid3, UniformGrid1D.getFaceCenters, UniformGrid1D.numberOfFaces, List.range_succ]
example : grid3.getCellVolumes = [1, 1, 1] := by
  norm_num [grid3, UniformGrid1D.getCellVolumes, UniformGrid1D.numberOfCells, List.replicate]
example : grid3.getExteriorFaceIDs = [0, 3] := by decide
example : grid3.getInteriorFaceIDs = [1, 2] := by decide
example : grid3.getFaceCellIDs =
    [(some 0, none), (some 0, some 1), (some 1, some 2), (some 2, none)] := by decide
example : grid3._getCellToCellIDs =
    [(none, some 1), (some 0, some 2), (some 1, none)] := by decide
example : grid3._getCellToCellIDsFilled = [(0, 1), (0, 2), (1, 2)] := by decide
example : grid3._getAdjacentCellIDs = ([0, 0, 1, 2], [0, 1, 2, 2]) := by decide
example : grid3._getCellFaceOrientations = [(1, 1), (-1, 1), (-1, 1)] := by decide
example : grid3._getFaceNormals = [-1, 1, 1, 1] := by decide
example : grid3._getCellDistances = [0.5, 1, 1, 0.5] := by
  norm_num [grid3, UniformGrid1D._getCellDistances, UniformGrid1D.numberOfFaces, List.range_succ]
example : grid3._getCellToCellDistances = [(0.5, 1), (1, 1), (1, 0.5)] := by
  norm_num [grid3, UniformGrid1D._getCellToCellDistances, UniformGrid1D.numberOfCells,
    List.range_succ]

/-- Indexing a mapped range: entry i of the array built pointwise from f. -/
theorem getElem?_range_map {α : Type} (f : ℕ → α) {n i : ℕ} (h : i < n) :
    ((List.range n).map f)[i]? = some (f i) := by
  simp [List.getElem?_map, List.getElem?_range, h]

/-- Indexing a constant array. -/
theorem getElem?_replicate_of_lt {α : Type} (a : α) {n i : ℕ} (h : i < n) :
    (List.replicate n a)[i]? = some a := by
  simp [List.getElem?_replicate, h]

/-- C1: for every valid engine (the per-cell array methods need at least one
cell), the stored face normals are +1 on every face except face 0 whose
normal is -1; the per-cell face orientations are (-1, +1) for every cell
except cell 0 whose lower slot is +1; and for every cell i, whose bounding
faces are face i (lower-coordinate side) and face i+1 (higher-coordinate
side), orientation times stored face normal is -1 on the lower side and +1 on
the higher side, agreeing with the cell-normals query, whose row is always
(-1, 1). -/
theorem uniformGrid1D_C1_outward_consistency (g : UniformGrid1D) (h : 1 ≤ g.nx) :
    (∀ i, i < g.numberOfFaces →
      (g._getFaceNormals)[i]? = some (if i = 0 then -1 else 1)) ∧
    (∀ i, i < g.numberOfCells →
      (g._getCellFaceOrientations)[i]? = some (if i = 0 then (1, 1) else (-1, 1))) ∧
    (∀ i, i < g.numberOfCells →
      ∃ o nlo nhi, (g._getCellFaceOrientations)[i]? = some o ∧
        (g._getFaceNormals)[i]? = some nlo ∧
        (g._getFaceNormals)[i + 1]? = some nhi ∧
        (o.1 : ℚ) * nlo = -1 ∧ (o.2 : ℚ) * nhi = 1 ∧
        (g._getCellNormals)[i]? = some (-1, 1)) := by
  have hfc : g.numberOfFaces = g.nx + 1 := rfl
  have hcc : g.numberOfCells = g.nx := rfl
  refine ⟨?_, ?_, ?_⟩
  · intro i hi
    rw [UniformGrid1D._getFaceNormals, getElem?_range_map _ hi]
  · intro i hi
    rw [UniformGrid1D._getCellFaceOrientations, getElem?_range_map _ hi]
    split_ifs <;> rfl
  · intro i hi
    have hif : i < g.numberOfFaces := by rw [hfc]; rw [hcc] at hi; omega
    have hif1 : i + 1 < g.numberOfFaces := by rw [hfc]; rw [hcc] at hi; omega
    refine ⟨if i = 0 then (1, 1) else (-1, 1), if i = 0 then -1 else 1, 1,
      ?_, ?_, ?_, ?_, ?_, ?_⟩
    · rw [UniformGrid1D._getCellFaceOrientations, getElem?_range_map _ hi]
      split_ifs <;> rfl
    · rw [UniformGrid1D._getFaceNormals, getElem?_range_map _ hif]
    · rw [UniformGrid1D._getFaceNormals, getElem?_range_map _ hif1,
        if_neg (Nat.succ_ne_zero i)]
    · split_ifs <;> norm_num
    · split_ifs <;> norm_num
    · rw [UniformGrid1D._getCellNormals, getElem?_range_map _ hi]

/-- Witness for C1 at the engine with dx 1, nx 3, origin 0, cell 0. -/
theorem uniformGrid1D_C1_outward_witness :
    1 ≤ grid3.nx ∧
    (∃ o nlo nhi, (grid3._getCellFaceOrientations)[0]? = some o ∧
      (grid3._getFaceNormals)[0]? = some nlo ∧
      (grid3._getFaceNormals)[0 + 1]? = some nhi ∧
      (o.1 : ℚ) * nlo = -1 ∧ (o.2 : ℚ) * nhi = 1 ∧
      (grid3._getCellNormals)[0]? = some ((-1, 1) : ℚ × ℚ)) :=
  ⟨by decide,
   (uniformGrid1D_C1_outward_consistency grid3 (by decide)).2.2 0 (by decide)⟩

/-- C2 counterexample: at the engine with dx 1, nx 3, origin 0, the claim
says the boundary face 0 is the pair (left-cell-ID, right-cell-ID) with
exactly the missing-neighbor slot masked; face 0 has no left neighbor and its
right neighbor is cell 0, so the claimed row is (masked, 0).  The code instead
returns (0, masked): the first slot is not masked. -/
theorem uniformGrid1D_C2_counterexample :
    ¬ (grid3.getFaceCellIDs)[0]? = some ((none, some 0) : Option ℤ × Option ℤ) := by
  decide

/-- C2 amended: for every engine with at least one cell, every interior face
i carries the pair (i-1, i) of two distinct valid cell IDs; each boundary
face has exactly one masked slot, the other slot holding the ID of its single
adjacent cell; at the right boundary face nx the masked slot is the missing
(right) neighbor slot and the left slot holds nx-1, but at the left boundary
face 0 the adjacent cell ID 0 sits in the first slot and the second slot is
the masked one, rather than the missing (left) slot being masked. -/
theorem uniformGrid1D_C2_faceCellIDs (g : UniformGrid1D) (h : 1 ≤ g.nx) :
    (∀ i, 1 ≤ i → i < g.nx →
      (g.getFaceCellIDs)[i]? = some (some ((i : ℤ) - 1), some (i : ℤ)) ∧
      (i : ℤ) - 1 ≠ (i : ℤ) ∧ 0 ≤ (i : ℤ) - 1 ∧ (i : ℤ) < (g.nx : ℤ)) ∧
    (g.getFaceCellIDs)[0]? = some (some 0, none) ∧
    (g.getFaceCellIDs)[g.nx]? = some (some ((g.nx : ℤ) - 1), none) := by
  have hfc : g.numberOfFaces = g.nx + 1 := rfl
  refine ⟨?_, ?_, ?_⟩
  · intro i h1 h2
    have hif : i < g.numberOfFaces := by omega
    refine ⟨?_, by omega, by omega, by exact_mod_cast h2⟩
    rw [UniformGrid1D.getFaceCellIDs, getElem?_range_map _ hif,
      if_neg (by omega : ¬ i = 0), if_neg (by rw [hfc]; omega : ¬ (i = 0 ∨ i = g.numberOfFaces - 1))]
  · have h0 : 0 < g.numberOfFaces := by omega
    rw [UniformGrid1D.getFaceCellIDs, getElem?_range_map _ h0, if_pos rfl,
      if_pos (Or.inl rfl)]
  · have hn : g.nx < g.numberOfFaces := by omega
    rw [UniformGrid1D.getFaceCellIDs, getElem?_range_map _ hn,
      if_neg (by omega : ¬ g.nx = 0), if_pos (Or.inr (by rw [hfc]; omega))]

/-- Witness for the amended C2 at the engine with dx 1, nx 3, origin 0:
interior face 1 and the two boundary faces. -/
theorem uniformGrid1D_C2_faceCellIDs_witness :
    (grid3.getFaceCellIDs)[1]? = some (some 0, some 1) ∧
    (grid3.getFaceCellIDs)[0]? = some (some 0, none) ∧
    (grid3.getFaceCellIDs)[3]? = some (some 2, none) := by
  have t := uniformGrid1D_C2_faceCellIDs grid3 (by decide)
  exact ⟨by simpa using (t.1 1 (by decide) (by decide)).1, t.2.1, by simpa using t.2.2⟩

/-- C3: the face-aspect-ratio query is not total: its body evaluates the bare
name _getCellDistances, which has no binding in the module, so every call
raises NameError instead of returning a value.  The code contradicts the
specification sentence that all query operations are total over a validly
constructed engine. -/
theorem uniformGrid1D_C3_faceAspectRatios_nameError (g : UniformGrid1D) :
    g._getFaceAspectRatios = Except.error FipyError.nameError := rfl

/-- C4: constructing an engine with non-positive spacing, dx = 0 or dx < 0,
yields the InvalidMeshParameters error for every cell count and origin; the
constructor returns an error value and never an engine, so the failure is at
construction time and no partially constructed engine escapes. -/
theorem uniformGrid1D_C4_invalid_dx (dx : ℚ) (nx : ℤ) (origin : ℚ) (h : dx ≤ 0) :
    UniformGrid1D.mk1D dx nx origin = Except.error FipyError.invalidMeshParameters := by
  simp [UniformGrid1D.mk1D, UniformGrid1D._calcNumPts, h, Except.map]

/-- Witness for C4 at dx = 0 (with nx 5, origin 2) and at dx = -3 (with a
negative requested count and origin 1). -/
theorem uniformGrid1D_C4_invalid_dx_witness :
    ((0 : ℚ) ≤ 0 ∧
      UniformGrid1D.mk1D 0 5 2 = Except.error FipyError.invalidMeshParameters) ∧
    ((-3 : ℚ) ≤ 0 ∧
      UniformGrid1D.mk1D (-3) (-7) 1 = Except.error FipyError.invalidMeshParameters) :=
  ⟨⟨by decide, uniformGrid1D_C4_invalid_dx 0 5 2 (by decide)⟩,
   ⟨by norm_num, uniformGrid1D_C4_invalid_dx (-3) (-7) 1 (by norm_num)⟩⟩

/-- C5: for every engine, face i sits at origin + i*dx, cell i sits at
origin + (i + 0.5)*dx, every cell volume is dx, and the cell volumes sum to
nx*dx exactly (the arithmetic is exact over the rationals). -/
theorem uniformGrid1D_C5_centers_volumes (g : UniformGrid1D) :
    (∀ i, i < g.numberOfFaces →
      (g.getFaceCenters)[i]? = some (g.origin + (i : ℚ) * g.dx)) ∧
    (∀ i, i < g.numberOfCells →
      (g.getCellCenters)[i]? = some (g.origin + ((i : ℚ) + 0.5) * g.dx)) ∧
    (∀ i, i < g.numberOfCells → (g.getCellVolumes)[i]? = some g.dx) ∧
    (g.getCellVolumes).sum = (g.nx : ℚ) * g.dx := by
  refine ⟨?_, ?_, ?_, ?_⟩
  · intro i hi
    rw [UniformGrid1D.getFaceCenters, getElem?_range_map _ hi]
    ring_nf
  · intro i hi
    rw [UniformGrid1D.getCellCenters, getElem?_range_map _ hi]
    ring_nf
  · intro i hi
    rw [UniformGrid1D.getCellVolumes, List.getElem?_map,
      getElem?_replicate_of_lt _ hi]
    simp
  · rw [UniformGrid1D.getCellVolumes, List.map_replicate]
    simp [List.sum_replicate, nsmul_eq_mul, UniformGrid1D.numberOfCells]

/-- Witness for C5 at the engine with dx 1, nx 3, origin 0: face 2, cell 1
and the volume sum. -/
theorem uniformGrid1D_C5_centers_volumes_witness :
    (grid3.getFaceCenters)[2]? = some (grid3.origin + (2 : ℚ) * grid3.dx) ∧
    (grid3.getCellCenters)[1]? = some (grid3.origin + ((1 : ℚ) + 0.5) * grid3.dx) ∧
    (grid3.getCellVolumes)[0]? = some grid3.dx ∧
    (grid3.getCellVolumes).sum = (grid3.nx : ℚ) * grid3.dx := by
  have t := uniformGrid1D_C5_centers_volumes grid3
  exact ⟨by simpa using t.1 2 (by decide), by simpa using t.2.1 1 (by decide),
    t.2.2.1 0 (by decide), t.2.2.2⟩

/-- C6: every engine reports nx+1 faces, nx+1 vertices and nx cells; the
exterior face IDs are the two boundary faces 0 and nx, and the interior face
IDs are exactly the range 1..nx-1; at dx 1, nx 3, origin 0 the exterior list
is [0, 3] and the interior list is [1, 2]. -/
theorem uniformGrid1D_C6_counts_boundary (g : UniformGrid1D) :
    g.numberOfFaces = g.nx + 1 ∧ g.numberOfVertices = g.nx + 1 ∧
    g.numberOfCells = g.nx ∧
    g.getExteriorFaceIDs = [0, g.nx] ∧
    (∀ k, k ∈ g.getInteriorFaceIDs ↔ 1 ≤ k ∧ k ≤ g.nx - 1) ∧
    grid3.getExteriorFaceIDs = [0, 3] ∧ grid3.getInteriorFaceIDs = [1, 2] := by
  refine ⟨rfl, rfl, rfl, rfl, ?_, by decide, by decide⟩
  intro k
  rw [UniformGrid1D.getInteriorFaceIDs]
  simp only [List.mem_map, List.mem_range, UniformGrid1D.numberOfFaces]
  constructor
  · rintro ⟨a, ha, rfl⟩; omega
  · rintro ⟨h1, h2⟩; exact ⟨k - 1, by omega, by omega⟩

/-- Witness for C6 at the engine with dx 1, nx 3, origin 0, checking the
membership characterization at face 2. -/
theorem uniformGrid1D_C6_counts_boundary_witness :
    grid3.getExteriorFaceIDs = [0, grid3.nx] ∧
    (2 ∈ grid3.getInteriorFaceIDs ↔ 1 ≤ 2 ∧ 2 ≤ grid3.nx - 1) :=
  ⟨(uniformGrid1D_C6_counts_boundary grid3).2.2.2.1,
   (uniformGrid1D_C6_counts_boundary grid3).2.2.2.2.1 2⟩

/-- C7: for every engine with at least one cell, the per-face distance array
holds dx/2 at the two boundary faces 0 and nx and dx at every interior face,
and the per-cell cell-to-cell distance array holds dx in both slots except
that cell 0 has dx/2 in its lower (boundary-side) slot and the last cell has
dx/2 in its upper (boundary-side) slot. -/
theorem uniformGrid1D_C7_distances (g : UniformGrid1D) (h : 1 ≤ g.nx) :
    (∀ i, i < g.numberOfFaces →
      (g._getCellDistances)[i]? =
        some (if i = 0 ∨ i = g.nx then g.dx / 2 else g.dx)) ∧
    (∀ i, i < g.numberOfCells →
      (g._getCellToCellDistances)[i]? =
        some (if i = 0 then g.dx / 2 else g.dx,
              if i = g.nx - 1 then g.dx / 2 else g.dx)) := by
  constructor
  · intro i hi
    rw [UniformGrid1D._getCellDistances, getElem?_range_map _ hi]
    rfl
  · intro i hi
    rw [UniformGrid1D._getCellToCellDistances, getElem?_range_map _ hi]
    rfl

/-- Witness for C7 at the engine with dx 1, nx 3, origin 0: boundary face 0,
interior face 2, first cell and middle cell. -/
theorem uniformGrid1D_C7_distances_witness :
    (grid3._getCellDistances)[0]? =
      some (if 0 = 0 ∨ 0 = grid3.nx then grid3.dx / 2 else grid3.dx) ∧
    (grid3._getCellDistances)[2]? =
      some (if 2 = 0 ∨ 2 = grid3.nx then grid3.dx / 2 else grid3.dx) ∧
    (grid3._getCellToCellDistances)[1]? =
      some (if 1 = 0 then grid3.dx / 2 else grid3.dx,
            if 1 = grid3.nx - 1 then grid3.dx / 2 else grid3.dx) := by
  have t := uniformGrid1D_C7_distances grid3 (by decide)
  exact ⟨t.1 0 (by decide), t.1 2 (by decide), t.2 1 (by decide)⟩

/-- Construction with positive spacing and a nonnegative requested count
succeeds and stores the parameters unchanged. -/
theorem mk1D_ok (dx : ℚ) (n : ℕ) (origin : ℚ) (h : 0 < dx) :
    UniformGrid1D.mk1D dx (n : ℤ) origin =
      Except.ok { dx := dx, nx := n, origin := origin } := by
  have hn : ¬ ((n : ℤ) < 0) := not_lt.mpr (Int.natCast_nonneg n)
  simp [UniformGrid1D.mk1D, UniformGrid1D._calcNumPts, not_le.mpr h, hn,
    Except.map, Int.toNat_natCast]

/-- Entry i of the cell-centers array. -/
theorem getCellCenters_getElem? (g : UniformGrid1D) {i : ℕ}
    (hi : i < g.numberOfCells) :
    (g.getCellCenters)[i]? = some (((i : ℚ) + 0.5) * g.dx + g.origin) := by
  rw [UniformGrid1D.getCellCenters, getElem?_range_map _ hi]

/-- Entry i of the cell-volumes array. -/
theorem getCellVolumes_getElem? (g : UniformGrid1D) {i : ℕ}
    (hi : i < g.numberOfCells) :
    (g.getCellVolumes)[i]? = some (1 * g.dx) := by
  rw [UniformGrid1D.getCellVolumes, List.getElem?_map, getElem?_replicate_of_lt _ hi]
  rfl

/-- C8: for every valid engine (positive dx), translating by v returns a new
engine whose cell centers are the old ones shifted by v while dx, nx, the
cell volumes and the face areas are unchanged; and scaling by a positive
factor f returns a new engine whose cell volumes and cell centers are f times
the old ones. -/
theorem uniformGrid1D_C8_translate_scale (g : UniformGrid1D) (v f : ℚ)
    (hdx : 0 < g.dx) (hf : 0 < f) :
    (∃ gt, g._translate v = Except.ok gt ∧ gt.dx = g.dx ∧ gt.nx = g.nx ∧
      (∀ i, i < g.numberOfCells →
        (gt.getCellCenters)[i]? = ((g.getCellCenters)[i]?).map (· + v)) ∧
      gt.getCellVolumes = g.getCellVolumes ∧
      gt._getFaceAreas = g._getFaceAreas) ∧
    (∃ gs, g.mulByFactor f = Except.ok gs ∧
      (∀ i, i < g.numberOfCells →
        (gs.getCellVolumes)[i]? = ((g.getCellVolumes)[i]?).map (f * ·)) ∧
      (∀ i, i < g.numberOfCells →
        (gs.getCellCenters)[i]? = ((g.getCellCenters)[i]?).map (f * ·))) := by
  constructor
  · refine ⟨{ dx := g.dx, nx := g.nx, origin := g.origin + v },
      by rw [UniformGrid1D._translate, mk1D_ok _ _ _ hdx], rfl, rfl, ?_, rfl, rfl⟩
    intro i hi
    rw [getCellCenters_getElem? { dx := g.dx, nx := g.nx, origin := g.origin + v } hi,
      getCellCenters_getElem? g hi]
    simp only [Option.map_some', Option.some.injEq]
    ring
  · refine ⟨{ dx := g.dx * f, nx := g.nx, origin := g.origin * f },
      by rw [UniformGrid1D.mulByFactor, mk1D_ok _ _ _ (mul_pos hdx hf)], ?_, ?_⟩
    · intro i hi
      rw [getCellVolumes_getElem? { dx := g.dx * f, nx := g.nx, origin := g.origin * f } hi,
        getCellVolumes_getElem? g hi]
      simp only [Option.map_some', Option.some.injEq]
      ring
    · intro i hi
      rw [getCellCenters_getElem? { dx := g.dx * f, nx := g.nx, origin := g.origin * f } hi,
        getCellCenters_getElem? g hi]
      simp only [Option.map_some', Option.some.injEq]
      ring

/-- Witness for C8 at the engine with dx 1, nx 3, origin 0, vector 2 and
factor 3, evaluated at cell 0. -/
theorem uniformGrid1D_C8_translate_scale_witness :
    0 < grid3.dx ∧ 0 < (3 : ℚ) ∧
    (∃ gt, grid3._translate 2 = Except.ok gt ∧
      (gt.getCellCenters)[0]? = ((grid3.getCellCenters)[0]?).map (· + 2)) ∧
    (∃ gs, grid3.mulByFactor 3 = Except.ok gs ∧
      (gs.getCellVolumes)[0]? = ((grid3.getCellVolumes)[0]?).map ((3 : ℚ) * ·)) := by
  have t := uniformGrid1D_C8_translate_scale grid3 2 3 (by decide) (by decide)
  obtain ⟨⟨gt, h1, _, _, h4, _, _⟩, ⟨gs, h5, h6, _⟩⟩ := t
  exact ⟨by decide, by decide, ⟨gt, h1, h4 0 (by decide)⟩, ⟨gs, h5, h6 0 (by decide)⟩⟩

/-- C9: the concatenation operation never reaches the delegation the claim
describes: the module does not import Mesh1D, so the body's lookup of the
name Mesh1D raises NameError for every engine, partner and tolerance. -/
theorem uniformGrid1D_C9_concatenate_nameError (g other : UniformGrid1D) (s : ℚ) :
    g._concatenate other s = Except.error FipyError.nameError := rfl

/-- C10: for every engine with at least one cell, every unmasked entry of the
face-to-cell adjacency, the masked cell-to-cell adjacency, the filled
cell-to-cell adjacency and the duplicated adjacent-cell-IDs query is a valid
cell ID in the range 0..nx-1; and the filled variant puts the end cells own
IDs, 0 and nx-1, in the two otherwise-masked slots. -/
theorem uniformGrid1D_C10_ids_in_range (g : UniformGrid1D) (h : 1 ≤ g.nx) :
    (∀ p ∈ g.getFaceCellIDs, ∀ x : ℤ,
      p.1 = some x ∨ p.2 = some x → 0 ≤ x ∧ x < (g.nx : ℤ)) ∧
    (∀ p ∈ g._getCellToCellIDs, ∀ x : ℤ,
      p.1 = some x ∨ p.2 = some x → 0 ≤ x ∧ x < (g.nx : ℤ)) ∧
    (∀ p ∈ g._getCellToCellIDsFilled,
      (0 ≤ p.1 ∧ p.1 < (g.nx : ℤ)) ∧ (0 ≤ p.2 ∧ p.2 < (g.nx : ℤ))) ∧
    (∀ x ∈ (g._getAdjacentCellIDs).1, 0 ≤ x ∧ x < (g.nx : ℤ)) ∧
    (∀ x ∈ (g._getAdjacentCellIDs).2, 0 ≤ x ∧ x < (g.nx : ℤ)) ∧
    ((g._getCellToCellIDsFilled)[0]?).map Prod.fst = some 0 ∧
    ((g._getCellToCellIDsFilled)[g.nx - 1]?).map Prod.snd = some ((g.nx : ℤ) - 1) := by
  have hfc : g.numberOfFaces = g.nx + 1 := rfl
  have hcc : g.numberOfCells = g.nx := rfl
  refine ⟨?_, ?_, ?_, ?_, ?_, ?_, ?_⟩
  · intro p hp x hx
    simp only [UniformGrid1D.getFaceCellIDs, List.mem_map, List.mem_range, hfc] at hp
    obtain ⟨i, hi, rfl⟩ := hp
    rcases hx with hx | hx <;> split_ifs at hx with h1 <;>
      simp only [Option.some.injEq, reduceCtorEq] at hx <;> omega
  · intro p hp x hx
    simp only [UniformGrid1D._getCellToCellIDs, List.mem_map, List.mem_range, hcc] at hp
    obtain ⟨i, hi, rfl⟩ := hp
    rcases hx with hx | hx <;> split_ifs at hx with h1 <;>
      simp only [Option.some.injEq, reduceCtorEq] at hx <;> omega
  · intro p hp
    simp only [UniformGrid1D._getCellToCellIDsFilled, List.mem_map, List.mem_range,
      hcc] at hp
    obtain ⟨i, hi, rfl⟩ := hp
    dsimp only
    split_ifs <;> constructor <;> constructor <;> omega
  · intro x hx
    simp only [UniformGrid1D._getAdjacentCellIDs, List.mem_map, List.mem_range,
      hfc] at hx
    obtain ⟨i, hi, rfl⟩ := hx
    split_ifs <;> omega
  · intro x hx
    simp only [UniformGrid1D._getAdjacentCellIDs, List.mem_map, List.mem_range,
      hfc] at hx
    obtain ⟨i, hi, rfl⟩ := hx
    split_ifs <;> omega
  · have h0 : 0 < g.numberOfCells := by omega
    rw [UniformGrid1D._getCellToCellIDsFilled, getElem?_range_map _ h0]
    simp
  · have hn : g.nx - 1 < g.numberOfCells := by omega
    rw [UniformGrid1D._getCellToCellIDsFilled, getElem?_range_map _ hn]
    simp [hcc]

/-- Witness for C10 at the engine with dx 1, nx 3, origin 0: the unmasked
slot of boundary face 0 and the two filled end slots. -/
theorem uniformGrid1D_C10_ids_in_range_witness :
    (0 ≤ (0 : ℤ) ∧ (0 : ℤ) < (grid3.nx : ℤ)) ∧
    ((grid3._getCellToCellIDsFilled)[0]?).map Prod.fst = some 0 ∧
    ((grid3._getCellToCellIDsFilled)[grid3.nx - 1]?).map Prod.snd =
      some ((grid3.nx : ℤ) - 1) := by
  have t := uniformGrid1D_C10_ids_in_range grid3 (by decide)
  refine ⟨t.1 (some 0, none) ?_ 0 (Or.inl rfl), t.2.2.2.2.2.1, t.2.2.2.2.2.2⟩
  decide
